import Mathlib

/-
Shallow embedding of the core of `src/commands/radio.py` from the
`bnfone/discord-bot-alastor` repository, together with theorems settling the
frozen claims about its specification.

Conventions of the embedding:
* Python strings are Lean `String`s; the handful of `str` methods the source
  uses (`lower`, `strip`, `startswith`, `endswith`, `splitlines`,
  `split("=", 1)`, substring membership `in`) are re-implemented below over
  the character list so that every definition evaluates by kernel reduction.
* Python dicts are association lists with unique keys; `dictLookup`,
  `dictInsert`, `dictErase`, `dictUpdate` mirror `d[k]`, `d[k] = v`,
  `del d[k]` and `d.update(other)`.
* `time.time()` is an explicit `Nat` argument; `aiohttp` fetches are an
  explicit `Option String` oracle argument (`none` models any exception or
  non-2xx status raised by `raise_for_status`, i.e. the `except` path).
* Module-level mutable state (`current_radios`, `stream_cache`,
  `server_stations`, `auto_leave_tasks`, the written state file) is a
  `BotState` record threaded through the stateful operations.
-/

set_option autoImplicit false

namespace Alastor

/-! ### String primitives mirroring the Python `str` methods used in radio.py -/

/-- Does `s` begin with the pattern `p` (both as character lists)? -/
def beginsWithList : List Char → List Char → Bool
  | [], _ => true
  | _ :: _, [] => false
  | p :: ps, c :: cs => p = c && beginsWithList ps cs

/-- Python `pat in s` substring membership, on character lists. -/
def listHasSub (pat : List Char) : List Char → Bool
  | [] => pat.isEmpty
  | c :: cs => beginsWithList pat (c :: cs) || listHasSub pat cs

/-- Python `url.startswith(pat)`. -/
def strStartsWith (s pat : String) : Bool :=
  beginsWithList pat.toList s.toList

/-- Python `url.endswith(pat)`. -/
def strEndsWith (s pat : String) : Bool :=
  beginsWithList pat.toList.reverse s.toList.reverse

/-- Python `pat in s` substring membership. -/
def containsStr (s pat : String) : Bool :=
  listHasSub pat.toList s.toList

/-- Python `str.lower()` (ASCII case fold; the URLs and playlist bodies the
source handles are ASCII). -/
def strToLower (s : String) : String :=
  String.mk (s.toList.map Char.toLower)

/-- The default whitespace stripped by Python `str.strip()`. -/
def isPySpace (c : Char) : Bool :=
  c = ' ' || c = '\t' || c = '\n' || c = '\r' || c = '\x0b' || c = '\x0c'

/-- Python `line.strip()`. -/
def strStrip (s : String) : String :=
  String.mk (((s.toList.dropWhile isPySpace).reverse.dropWhile isPySpace).reverse)

/-- Worker for `splitLines`: Python `str.splitlines()` splits at `\n`, `\r`
and `\r\n` and produces no trailing empty line. -/
def splitLinesAux : List Char → List Char → List String
  | [], [] => []
  | [], acc => [String.mk acc.reverse]
  | '\r' :: '\n' :: rest, acc => String.mk acc.reverse :: splitLinesAux rest []
  | '\r' :: rest, acc => String.mk acc.reverse :: splitLinesAux rest []
  | '\n' :: rest, acc => String.mk acc.reverse :: splitLinesAux rest []
  | c :: rest, acc => splitLinesAux rest (c :: acc)

/-- Python `text.splitlines()`. -/
def splitLines (s : String) : List String :=
  splitLinesAux s.toList []

/-- The characters after the first `'='`, if any: combines Python's
`"=" in line` test (`some`/`none`) with `line.split("=", 1)[1]`. -/
def splitAtFirstEq : List Char → Option (List Char)
  | [] => none
  | c :: cs => if c = '=' then some cs else splitAtFirstEq cs

/-! ### Association-list model of Python dicts -/

/-- Python `d.get(k)` / `k in d`. -/
def dictLookup {α β : Type} [DecidableEq α] : List (α × β) → α → Option β
  | [], _ => none
  | (k, v) :: rest, a => if k = a then some v else dictLookup rest a

/-- Python `d[k] = v`: replace in place or append. -/
def dictInsert {α β : Type} [DecidableEq α] : List (α × β) → α → β → List (α × β)
  | [], a, b => [(a, b)]
  | (k, v) :: rest, a, b =>
    if k = a then (a, b) :: rest else (k, v) :: dictInsert rest a b

/-- Python `del d[k]`. -/
def dictErase {α β : Type} [DecidableEq α] : List (α × β) → α → List (α × β)
  | [], _ => []
  | (k, v) :: rest, a => if k = a then rest else (k, v) :: dictErase rest a

/-- Python `d.update(other)`: assign every entry of `other` into `d`. -/
def dictUpdate {α β : Type} [DecidableEq α] (d other : List (α × β)) : List (α × β) :=
  other.foldl (fun acc kv => dictInsert acc kv.1 kv.2) d

theorem dictLookup_insert_self {α β : Type} [DecidableEq α]
    (d : List (α × β)) (a : α) (b : β) :
    dictLookup (dictInsert d a b) a = some b := by
  induction d with
  | nil => simp [dictInsert, dictLookup]
  | cons kv rest ih =>
    obtain ⟨k, v⟩ := kv
    by_cases h : k = a <;> simp [dictInsert, dictLookup, h, ih]

theorem dictLookup_insert_ne {α β : Type} [DecidableEq α]
    (d : List (α × β)) (a : α) (b : β) (k : α) (h : k ≠ a) :
    dictLookup (dictInsert d a b) k = dictLookup d k := by
  induction d with
  | nil => simp [dictInsert, dictLookup, Ne.symm h]
  | cons kv rest ih =>
    obtain ⟨k', v⟩ := kv
    by_cases h' : k' = a
    · subst h'
      simp [dictInsert, dictLookup, Ne.symm h]
    · simp [dictInsert, dictLookup, h', ih]

theorem dictLookup_eq_none_of_not_mem {α β : Type} [DecidableEq α]
    (d : List (α × β)) (k : α) (h : k ∉ d.map Prod.fst) :
    dictLookup d k = none := by
  induction d with
  | nil => simp [dictLookup]
  | cons kv rest ih =>
    obtain ⟨k', v⟩ := kv
    simp only [List.map, List.mem_cons, not_or] at h
    simp [dictLookup, Ne.symm h.1, ih h.2]

theorem dictLookup_erase_self {α β : Type} [DecidableEq α]
    (d : List (α × β)) (k : α) (h : (d.map Prod.fst).Nodup) :
    dictLookup (dictErase d k) k = none := by
  induction d with
  | nil => simp [dictErase, dictLookup]
  | cons kv rest ih =>
    obtain ⟨k', v⟩ := kv
    simp only [List.map, List.nodup_cons] at h
    by_cases h' : k' = k
    · subst h'
      simpa [dictErase] using dictLookup_eq_none_of_not_mem rest k' h.1
    · simp [dictErase, dictLookup, h', ih h.2]

theorem dictUpdate_cons {α β : Type} [DecidableEq α]
    (d : List (α × β)) (a : α) (b : β) (e : List (α × β)) :
    dictUpdate d ((a, b) :: e) = dictUpdate (dictInsert d a b) e := rfl

theorem dictLookup_update_of_none {α β : Type} [DecidableEq α]
    (d e : List (α × β)) (k : α) (h : dictLookup e k = none) :
    dictLookup (dictUpdate d e) k = dictLookup d k := by
  induction e generalizing d with
  | nil => rfl
  | cons kv rest ih =>
    obtain ⟨a, b⟩ := kv
    by_cases h' : a = k
    · simp [dictLookup, h'] at h
    · rw [dictUpdate_cons, ih (dictInsert d a b)
        (by simpa [dictLookup, h'] using h)]
      exact dictLookup_insert_ne d a b k (fun hh => h' hh.symm)

theorem dictLookup_update_of_some {α β : Type} [DecidableEq α]
    (d e : List (α × β)) (k : α) (v : β)
    (hnd : (e.map Prod.fst).Nodup) (h : dictLookup e k = some v) :
    dictLookup (dictUpdate d e) k = some v := by
  induction e generalizing d with
  | nil => simp [dictLookup] at h
  | cons kv rest ih =>
    obtain ⟨a, b⟩ := kv
    simp only [List.map, List.nodup_cons] at hnd
    by_cases h' : a = k
    · subst h'
      simp [dictLookup] at h
      subst h
      rw [dictUpdate_cons,
        dictLookup_update_of_none (dictInsert d a b) rest a
          (dictLookup_eq_none_of_not_mem rest a hnd.1),
        dictLookup_insert_self]
    · simp only [dictLookup, if_neg h'] at h
      rw [dictUpdate_cons]
      exact ih (dictInsert d a b) hnd.2 h

theorem dictLookup_update_isSome {α β : Type} [DecidableEq α]
    (d e : List (α × β)) (k : α) (h : (dictLookup d k).isSome) :
    (dictLookup (dictUpdate d e) k).isSome := by
  induction e generalizing d with
  | nil => exact h
  | cons kv rest ih =>
    obtain ⟨a, b⟩ := kv
    rw [dictUpdate_cons]
    apply ih
    by_cases h' : k = a
    · subst h'
      simp [dictLookup_insert_self]
    · rw [dictLookup_insert_ne d a b k h']
      exact h

/-! ### URL resolver (`resolve_stream_url`, radio.py lines 78-126) -/

/-- radio.py line 28: `CACHE_DURATION = 3600`. -/
def CACHE_DURATION : Nat := 3600

/-- `stream_cache`: url -> (resolved_url, timestamp). -/
abbrev Cache := List (String × String × Nat)

/-- `lower_url.endswith((".m3u", ".m3u8", ".pls"))`. -/
def isPlaylistUrl (url : String) : Bool :=
  strEndsWith (strToLower url) ".m3u" || strEndsWith (strToLower url) ".m3u8" ||
    strEndsWith (strToLower url) ".pls"

/-- One iteration of the `.pls` parsing loop (radio.py lines 101-111): a
stripped line starting with `File` and containing `=` whose value after the
first `=` starts with `http`/`https` yields that value; any other line is
skipped. -/
def plsLineStream (line : String) : Option String :=
  if strStartsWith (strStrip line) "File" then
    match splitAtFirstEq (strStrip line).toList with
    | some rest =>
      if strStartsWith (String.mk rest) "http" || strStartsWith (String.mk rest) "https" then
        some (String.mk rest)
      else none
    | none => none
  else none

/-- The `.pls` branch: first qualifying `File...=` line of the body. -/
def parsePls (body : String) : Option String :=
  (splitLines body).findSome? plsLineStream

/-- One iteration of the `.m3u`/`.m3u8` parsing loop (radio.py lines
114-122): the stripped line qualifies when non-empty, not `#`-prefixed, and
starting with `http`/`https`. -/
def m3uLineStream (line : String) : Option String :=
  if !(strStrip line == "") && !(strStartsWith (strStrip line) "#") &&
      (strStartsWith (strStrip line) "http" || strStartsWith (strStrip line) "https") then
    some (strStrip line)
  else none

/-- The `.m3u`/`.m3u8` branch: first qualifying line of the body. -/
def parseM3u (body : String) : Option String :=
  (splitLines body).findSome? m3uLineStream

/-- Dispatch on the playlist format exactly as radio.py line 100 does
(`if lower_url.endswith(".pls")`, otherwise the m3u branch). -/
def parsePlaylistBody (url body : String) : Option String :=
  if strEndsWith (strToLower url) ".pls" then parsePls body else parseM3u body

/-- Outcome of one `resolve_stream_url` call: the returned value (`none` is
Python `None`), the `stream_cache` afterwards, and whether a network fetch
(`session.get`) was issued. -/
structure ResolveOut where
  result : Option String
  cache : Cache
  fetched : Bool
deriving DecidableEq

/-- The part of `resolve_stream_url` after the cache check (radio.py lines
91-126): fetch the playlist with a 5s timeout (`fetch = none` models any
exception, which the `except` block turns into `None`); on a body, return
the first qualifying line and cache it keyed by the original `url`; when no
line qualifies, control falls out of the `try` block and reaches the final
`return url` — the original playlist URL is returned and nothing is cached.
Non-playlist URLs are returned unchanged without any fetch. -/
def resolveFetch (url : String) (now : Nat) (fetch : Option String) (cache : Cache) :
    ResolveOut :=
  if isPlaylistUrl url then
    match fetch with
    | none => { result := none, cache := cache, fetched := true }
    | some text =>
      match parsePlaylistBody url text with
      | some streamUrl =>
        { result := some streamUrl
          cache := dictInsert cache url (streamUrl, now)
          fetched := true }
      | none => { result := some url, cache := cache, fetched := true }
  else
    { result := some url, cache := cache, fetched := false }

/-- `resolve_stream_url` (radio.py lines 78-126), with `time.time()` and the
HTTP fetch passed explicitly: a fresh cache entry (`now - timestamp <
CACHE_DURATION`) is returned without a fetch; an expired entry is deleted
(`del stream_cache[url]`) before resolving anew. -/
def resolve_stream_url (url : String) (now : Nat) (fetch : Option String) (cache : Cache) :
    ResolveOut :=
  match dictLookup cache url with
  | some (resolvedUrl, timestamp) =>
    if now - timestamp < CACHE_DURATION then
      { result := some resolvedUrl, cache := cache, fetched := false }
    else
      resolveFetch url now fetch (dictErase cache url)
  | none => resolveFetch url now fetch cache

/-! ### Safety validator (`is_safe_url`, radio.py lines 143-185) -/

/-- Matcher for a regex of the shape `\.(e)($|\?)` applied to the lowered
URL: the extension appears at the very end or immediately before a `?`. -/
def extTailMatch (s : String) (ext : String) : Bool :=
  strEndsWith s ("." ++ ext) || containsStr s ("." ++ ext ++ "?")

/-- Matcher for `172\.(1[6-9]|2[0-9]|3[01])\.`: one of the 16 private
`172.16.` … `172.31.` prefixes occurs as a substring. -/
def private172Match (s : String) : Bool :=
  ((List.range 16).map (fun i => "172." ++ toString (16 + i) ++ ".")).any
    (fun p => containsStr s p)

/-- The `suspicious_patterns` loop (radio.py lines 152-162) applied to
`url.lower()`; every pattern is a plain substring or extension-tail match,
and any match returns the same rejection, so the loop is their
disjunction in the listed order. -/
def suspiciousMatch (s : String) : Bool :=
  containsStr s "localhost" || containsStr s "127.0.0.1" ||
  containsStr s "0.0.0.0" || containsStr s "[::1]" ||
  containsStr s "192.168." || containsStr s "10." || private172Match s ||
  containsStr s "file://" || containsStr s "ftp://" || containsStr s "sftp://" ||
  (["exe", "bat", "cmd", "scr", "pif", "com"].any (fun e => extTailMatch s e)) ||
  containsStr s "javascript:" || containsStr s "data:" || containsStr s "vbscript:"

/-- The `streaming_patterns` check (radio.py lines 165-170) on `url.lower()`. -/
def streamingMatch (s : String) : Bool :=
  (["mp3", "aac", "ogg", "wav", "flac", "m4a"].any (fun e => extTailMatch s e)) ||
  (["m3u", "m3u8", "pls"].any (fun e => extTailMatch s e)) ||
  (containsStr s "icecast" || containsStr s "shoutcast" || containsStr s "stream") ||
  (containsStr s "/live/" || containsStr s "/radio/" || containsStr s "/stream/")

/-- `trusted_domains` (radio.py lines 175-180). -/
def trustedDomains : List String :=
  ["bbc.co.uk", "ndr.de", "wdr.de", "swr.de", "br.de",
   "ard.de", "deutschlandfunk.de", "ffn.de",
   "absolutradio.de", "ilovemusic.de", "pride1.de",
   "radio.de", "tune.in", "stream.live", "icecast"]

/-- `any(domain in url.lower() for domain in trusted_domains)`. -/
def trustedMatch (s : String) : Bool :=
  trustedDomains.any (fun d => containsStr s d)

/-- `url.startswith(("http://", "https://"))`. -/
def schemeOk (url : String) : Bool :=
  strStartsWith url "http://" || strStartsWith url "https://"

/-- `is_safe_url` (radio.py lines 143-185): scheme check, then the
suspicious-pattern loop, then the streaming-signature / trusted-domain
fallback; returns `(ok, message)`. -/
def is_safe_url (url : String) : Bool × String :=
  if !schemeOk url then
    (false, "URL must start with http:// or https://")
  else if suspiciousMatch (strToLower url) then
    (false, "URL appears to be unsafe or blocked")
  else if !streamingMatch (strToLower url) && !trustedMatch (strToLower url) then
    (false, "URL doesn't appear to be from a recognized streaming service")
  else
    (true, "URL appears safe")

/-! ### Data model: stations, sessions, module-level state -/

/-- A station definition as stored in `RADIOS` / `server_stations`:
`{url, description?, added_by?, added_at?}`. -/
structure Station where
  url : String
  description : Option String := none
  added_by : Option Nat := none
  added_at : Option Nat := none
deriving DecidableEq

/-- A `current_radios` entry: `{name, voice_client, url, start_time}`; the
voice client handle is a numeric id together with the voice channel it is
connected to. -/
structure SessionRec where
  name : String
  voice_client : Nat
  vcChannel : Nat
  url : String
  start_time : Nat
deriving DecidableEq

/-- A serialized session inside the state file: `save_state` keeps only
`name`, `url` and `start_time` (radio.py lines 35-42). -/
structure SavedSession where
  name : String
  url : String
  start_time : Nat
deriving DecidableEq

/-- The JSON state file written by `save_state`. Guild ids are serialized
with `str(guild_id)` and parsed back with `int(...)`; since these are
mutually inverse on the numeric ids the embedding keeps `Nat` keys. -/
structure SavedState where
  current_radios : List (Nat × SavedSession)
  radios : List (String × Station)
  server_stations : List (Nat × List (String × Station))
deriving DecidableEq

/-- The module-level mutable state of radio.py: `current_radios`, `RADIOS`,
`server_stations`, `stream_cache`, `auto_leave_tasks` (represented by the
set of guild ids with a pending timer task) and the last successfully
written state file. -/
structure BotState where
  current_radios : List (Nat × SessionRec)
  RADIOS : List (String × Station)
  server_stations : List (Nat × List (String × Station))
  stream_cache : Cache
  auto_leave_tasks : List Nat
  snapshot : Option SavedState
deriving DecidableEq

/-- The serialization performed by `save_state` (radio.py lines 31-52). -/
def save_state (st : BotState) : SavedState :=
  { current_radios :=
      st.current_radios.map (fun gd =>
        (gd.1, { name := gd.2.name, url := gd.2.url, start_time := gd.2.start_time }))
    radios := st.RADIOS
    server_stations := st.server_stations }

/-- `save_state()` as a state effect: write the serialized state to the
state file (write errors are caught and logged, leaving the old file; the
success case is modeled). -/
def writeSnapshot (st : BotState) : BotState :=
  { st with snapshot := some (save_state st) }

/-- A freshly started instance before `load_state` runs: `RADIOS` is the
`radios` map of the loaded YAML config and everything else is empty. -/
def freshState (configRadios : List (String × Station)) : BotState :=
  { current_radios := []
    RADIOS := configRadios
    server_stations := []
    stream_cache := []
    auto_leave_tasks := []
    snapshot := none }

/-- `load_state` (radio.py lines 54-69) applied to a state: `none` models
`FileNotFoundError` (start fresh). Otherwise `RADIOS.update(state["radios"])`
and `server_stations[gid] = stations` for each serialized guild; the
serialized `current_radios` entry of the file is never read back. -/
def load_state (st : BotState) (file : Option SavedState) : BotState :=
  match file with
  | none => st
  | some s =>
    { st with
      RADIOS := dictUpdate st.RADIOS s.radios
      server_stations := dictUpdate st.server_stations s.server_stations }

/-! ### Station registry view (`get_available_stations`, radio.py 187-192) -/

/-- `get_available_stations`: `available = RADIOS.copy()`, then
`available.update(server_stations[guild_id])` when the guild has its own
stations. Because only the copy is updated, the module state is returned
unchanged (second component). -/
def get_available_stations (st : BotState) (guild_id : Nat) :
    List (String × Station) × BotState :=
  match dictLookup st.server_stations guild_id with
  | some stations => (dictUpdate st.RADIOS stations, st)
  | none => (st.RADIOS, st)

/-! ### Session manager: stop, status, play -/

inductive StopResult where
  | stopped (name : String)
  | notPlaying
deriving DecidableEq

/-- What `voice_client.stop(); await ... disconnect(...)` did inside the
`try` of `stop_radio_static`; every outcome is caught and only logged. -/
inductive DisconnectOutcome where
  | ok
  | timeout
  | error
deriving DecidableEq

/-- `stop_radio_static` (radio.py lines 648-695): a guild without a session
gets the "No Radio Playing" notice and no state change; otherwise playback
stop/disconnect runs in a `try` whose `except` clauses swallow timeouts and
errors, and unconditionally afterwards `del current_radios[guild_id]` and
`save_state()` run. -/
def stop_radio (st : BotState) (guild_id : Nat) (_outcome : DisconnectOutcome) :
    StopResult × BotState :=
  match dictLookup st.current_radios guild_id with
  | none => (.notPlaying, st)
  | some r =>
    (.stopped r.name,
      writeSnapshot { st with current_radios := dictErase st.current_radios guild_id })

inductive StatusResult where
  | playing (name : String) (uptime : Nat)
  | notPlaying
deriving DecidableEq

/-- `show_info_static` (radio.py lines 701-739), reduced to its state
observation: a guild in `current_radios` reports the station and uptime,
any other guild reports that no radio is playing. -/
def show_info (st : BotState) (guild_id : Nat) (now : Nat) : StatusResult :=
  match dictLookup st.current_radios guild_id with
  | some r => .playing r.name (now - r.start_time)
  | none => .notPlaying

/-- Outcome of one `voice_channel.connect(...)` attempt inside the retry
loop of `play_radio_static` (radio.py lines 392-430). -/
inductive AttemptOutcome where
  | success (vc : Nat) (channel : Nat)
  | closed
  | alreadyConnected
  | clientOther
  | timeout
deriving DecidableEq

inductive ConnectResult where
  | connected (vc : Nat) (channel : Nat)
  | errClosed
  | errConflict
  | errClient
  | errTimeout
deriving DecidableEq

/-- The `for attempt in range(3)` retry loop: `ConnectionClosed`,
`ClientException("Already connected")` (after a forced cleanup) and
`TimeoutError` are retried on attempts 1 and 2 and re-raised on attempt 3;
any other `ClientException` is re-raised immediately; a successful connect
breaks out of the loop. -/
def connect_with_retries (a1 a2 a3 : AttemptOutcome) : ConnectResult :=
  match a1 with
  | .success vc ch => .connected vc ch
  | .clientOther => .errClient
  | _ =>
    match a2 with
    | .success vc ch => .connected vc ch
    | .clientOther => .errClient
    | _ =>
      match a3 with
      | .success vc ch => .connected vc ch
      | .clientOther => .errClient
      | .closed => .errClosed
      | .alreadyConnected => .errConflict
      | .timeout => .errTimeout

inductive PlayResult where
  | stationNotFound
  | noVoiceChannel
  | connectionTimeout
  | connectionFailed
  | connectionConflict
  | voiceClientError
  | moveError
  | streamError
  | streamUnavailable
  | playbackError
  | ok (station : String) (channel : Nat)
deriving DecidableEq

def PlayResult.isOk : PlayResult → Bool
  | .ok _ _ => true
  | _ => false

/-- The external nondeterminism one `play_radio_static` call encounters:
the caller's voice channel, the three connection attempt outcomes, whether
a needed `move_to` succeeds, the playlist fetch during URL resolution, the
HEAD reachability probe, the three FFmpeg playback approaches, and the
clock. -/
structure PlayEnv where
  userChannel : Option Nat
  a1 : AttemptOutcome
  a2 : AttemptOutcome
  a3 : AttemptOutcome
  moveOk : Bool
  fetch : Option String
  probeOk : Bool
  p1 : Bool
  p2 : Bool
  p3 : Bool
  now : Nat
deriving DecidableEq

/-- `play_radio_static` (radio.py lines 318-636). Station lookup uses the
merged registry view; a missing station or caller voice channel aborts.
A pre-existing session only has its playback stopped (`current_vc.stop()`,
line 366) — the `current_radios` entry is not touched — and the cleanup
loop only disconnects voice clients. Each `except` handler around the
connect loop sends an error embed and returns without touching
`current_radios`. After a connection, a failed `move_to` returns; a `None`
resolution returns; a failed HEAD probe returns; three playback approaches
are tried and exhausting them returns. Only the success path installs the
new session record and calls `save_state()`. -/
def play_radio (st : BotState) (guild_id : Nat) (station_name : String) (env : PlayEnv) :
    PlayResult × BotState :=
  match dictLookup (get_available_stations st guild_id).1 station_name with
  | none => (.stationNotFound, st)
  | some station =>
    match env.userChannel with
    | none => (.noVoiceChannel, st)
    | some targetChannel =>
      match connect_with_retries env.a1 env.a2 env.a3 with
      | .errTimeout => (.connectionTimeout, st)
      | .errClosed => (.connectionFailed, st)
      | .errConflict => (.connectionConflict, st)
      | .errClient => (.voiceClientError, st)
      | .connected vc vcChannel =>
        if vcChannel ≠ targetChannel && !env.moveOk then
          (.moveError, st)
        else
          match resolve_stream_url station.url env.now env.fetch st.stream_cache with
          | { result := none, cache := cache2, fetched := _ } =>
            (.streamError, { st with stream_cache := cache2 })
          | { result := some resolvedUrl, cache := cache2, fetched := _ } =>
            if !env.probeOk then
              (.streamUnavailable, { st with stream_cache := cache2 })
            else if env.p1 || env.p2 || env.p3 then
              (.ok station_name targetChannel,
                writeSnapshot
                  { st with
                    stream_cache := cache2
                    current_radios :=
                      dictInsert st.current_radios guild_id
                        { name := station_name
                          voice_client := vc
                          vcChannel := targetChannel
                          url := resolvedUrl
                          start_time := env.now } })
            else
              (.playbackError, { st with stream_cache := cache2 })

/-! ### Idle monitor (radio.py lines 948-1042) -/

structure Member where
  id : Nat
  isBot : Bool
deriving DecidableEq

/-- The platform context the monitor reads: the bot's own user id, the guild
owning each voice channel, and each channel's current member list (Discord
member lists reflect the state after the event). -/
structure GuildEnv where
  botId : Nat
  channelGuild : Nat → Nat
  channelMembers : Nat → List Member

/-- A `on_voice_state_update(member, before, after)` event; the handler only
reads `member.bot` and `before.channel`, but the after-channel is kept for
stating claims about join events. -/
structure VoiceEvent where
  memberIsBot : Bool
  beforeChannel : Option Nat
  afterChannel : Option Nat
deriving DecidableEq

/-- `RadioCogEnhanced.on_voice_state_update` (radio.py lines 1019-1042):
ignore bot members; react only when the event has a before-channel whose
current member list contains the bot; with a live session whose voice
client sits in that channel, start a 30s auto-leave task when the channel
has no non-bot members and none is pending, and cancel-and-remove the
pending task when non-bot members are present. -/
def on_voice_state_update (g : GuildEnv) (st : BotState) (ev : VoiceEvent) : BotState :=
  if ev.memberIsBot then st
  else
    match ev.beforeChannel with
    | none => st
    | some ch =>
      if (g.channelMembers ch).any (fun m => m.id = g.botId) then
        match dictLookup st.current_radios (g.channelGuild ch) with
        | none => st
        | some r =>
          if r.vcChannel = ch then
            if ((g.channelMembers ch).filter (fun m => !m.isBot)).isEmpty &&
                !(st.auto_leave_tasks.contains (g.channelGuild ch)) then
              { st with auto_leave_tasks := (g.channelGuild ch) :: st.auto_leave_tasks }
            else if !((g.channelMembers ch).filter (fun m => !m.isBot)).isEmpty &&
                st.auto_leave_tasks.contains (g.channelGuild ch) then
              { st with auto_leave_tasks := st.auto_leave_tasks.erase (g.channelGuild ch) }
            else st
          else st
      else st

/-- Result of a timer firing: the state afterwards and whether the
"thanks for listening" notification was emitted. -/
structure FireOut where
  state : BotState
  notified : Bool
deriving DecidableEq

/-- `check_voice_channel_empty` at the moment the 30s sleep ends (radio.py
lines 948-1015): an already-stopped or disconnected session returns early
(without even clearing the task entry); otherwise the channel occupancy is
re-checked — with no non-bot members the session is stopped, deleted,
persisted and the thank-you notification emitted, and in every non-early
path the guild's task entry is removed. -/
def check_voice_channel_empty (g : GuildEnv) (st : BotState) (guild_id : Nat)
    (vcConnected : Bool) : FireOut :=
  match dictLookup st.current_radios guild_id with
  | none => { state := st, notified := false }
  | some r =>
    if !vcConnected then { state := st, notified := false }
    else if ((g.channelMembers r.vcChannel).filter (fun m => !m.isBot)).isEmpty then
      { state :=
          { writeSnapshot { st with current_radios := dictErase st.current_radios guild_id }
            with auto_leave_tasks := st.auto_leave_tasks.erase guild_id }
        notified := true }
    else
      { state := { st with auto_leave_tasks := st.auto_leave_tasks.erase guild_id }
        notified := false }

/-! ### Claim C1 -/

/-- C1: the claim says that a playlist URL whose body is fetched
successfully but contains no qualifying stream line makes
`resolve_stream_url` fail explicitly and never fall back to the original
playlist URL. The code does the opposite: control falls out of the `try`
block to the final `return url`. At a `.m3u` URL with an all-comment body a
fetch happens (`fetched = true`) and the original playlist URL is returned
instead of `none`; likewise for a `.pls` body with no `File<n>=` entry. -/
theorem c1_resolver_falls_back_on_unparsable_body :
    (resolve_stream_url "http://radio.example/playlist.m3u" 0
        (some "#EXTM3U\n# no stream lines here\n") []).result
      = some "http://radio.example/playlist.m3u" ∧
    (resolve_stream_url "http://radio.example/playlist.m3u" 0
        (some "#EXTM3U\n# no stream lines here\n") []).fetched = true ∧
    (resolve_stream_url "http://radio.example/list.pls" 0
        (some "[playlist]\nTitle1=x\nLength1=-1\n") []).result
      = some "http://radio.example/list.pls" := by
  decide

/-! ### Claim C6 -/

/-- C6: parsing postcondition on fetched playlist bodies: the `.pls` body
`"File1=http://x/y\nFile2=http://z/w"` resolves to `http://x/y` (value of
the first qualifying `File<n>=` line) and the `.m3u` body
`"#comment\n\nhttp://stream.example/a\nhttp://stream.example/b"` resolves
to `http://stream.example/a` (first non-empty, non-`#`, `http`-prefixed
line). -/
theorem c6_parse_first_qualifying_line :
    (resolve_stream_url "http://radio.example/station.pls" 0
        (some "File1=http://x/y\nFile2=http://z/w") []).result = some "http://x/y" ∧
    (resolve_stream_url "http://radio.example/station.m3u" 0
        (some "#comment\n\nhttp://stream.example/a\nhttp://stream.example/b") []).result
      = some "http://stream.example/a" := by
  decide

/-! ### Claim C7 -/

/-- C7: `is_safe_url` applies the scheme check first (a non-http scheme
gets the scheme message even when a loopback host is also present), then
the suspicious-pattern rejections, and classifies as safe exactly the
surviving URLs matching a streaming signature or a trusted broadcaster
domain; `http://localhost:8000/x` is unsafe and
`https://stream.example.com/live/radio.mp3` is safe. -/
theorem c7_validator_precedence_and_examples :
    (∀ url : String,
      (is_safe_url url).1 = true ↔
        (schemeOk url = true ∧ suspiciousMatch (strToLower url) = false ∧
          (streamingMatch (strToLower url) = true ∨ trustedMatch (strToLower url) = true))) ∧
    is_safe_url "ftp://localhost/a" = (false, "URL must start with http:// or https://") ∧
    is_safe_url "http://localhost:8000/x" = (false, "URL appears to be unsafe or blocked") ∧
    is_safe_url "https://stream.example.com/live/radio.mp3" = (true, "URL appears safe") := by
  refine ⟨?_, by decide, by decide, by decide⟩
  intro url
  unfold is_safe_url
  by_cases h1 : schemeOk url = true <;>
    by_cases h2 : suspiciousMatch (strToLower url) = true <;>
    by_cases h3 : streamingMatch (strToLower url) = true <;>
    by_cases h4 : trustedMatch (strToLower url) = true <;>
    simp [h1, h2, h3, h4]

/-- Witness for C7: the precedence characterization applied at a concrete
safe URL. -/
theorem c7_validator_witness :
    (is_safe_url "https://example.org/live/show.mp3").1 = true :=
  (c7_validator_precedence_and_examples.1 "https://example.org/live/show.mp3").mpr
    ⟨by decide, by decide, Or.inl (by decide)⟩

/-! ### Claim C8 -/

/-- C8: every http/https URL whose lowered text ends with `.com` or
contains `.com?` is rejected by the executable-filename pattern
`\.(exe|bat|cmd|scr|pif|com)($|\?)` before the streaming-signature or
trusted-domain checks can run, so `is_safe_url` reports it blocked. -/
theorem c8_dotcom_url_always_rejected (url : String)
    (hscheme : schemeOk url = true)
    (hcom : strEndsWith (strToLower url) ".com" = true ∨
        containsStr (strToLower url) ".com?" = true) :
    is_safe_url url = (false, "URL appears to be unsafe or blocked") := by
  have hdot : (("." : String) ++ "com") = ".com" := rfl
  have hdotq : (("." : String) ++ "com" ++ "?") = ".com?" := rfl
  have hext : extTailMatch (strToLower url) "com" = true := by
    unfold extTailMatch
    rw [hdotq, hdot]
    rcases hcom with h | h <;> simp [h]
  have hsusp : suspiciousMatch (strToLower url) = true := by
    unfold suspiciousMatch
    simp [List.any_cons, hext]
  unfold is_safe_url
  simp [hscheme, hsusp]

/-- Witness for C8: `https://icecast.example.com` is blocked even though it
contains the `icecast` streaming signature. -/
theorem c8_dotcom_witness :
    is_safe_url "https://icecast.example.com" = (false, "URL appears to be unsafe or blocked") ∧
    containsStr (strToLower "https://icecast.example.com") "icecast" = true :=
  ⟨c8_dotcom_url_always_rejected "https://icecast.example.com" (by decide)
      (Or.inl (by decide)),
    by decide⟩

/-! ### Claim C5 -/

/-- C5: after one successful resolution (playlist fetched and parsed at
time `t1`, cache previously without the URL), the result is cached keyed by
the original unresolved URL; any call within the TTL returns the identical
resolved URL with no further fetch and an unchanged cache; a call at or
past the TTL discards the expired entry, fetches anew, and a successful
fetch overwrites the entry with the fresh resolution and timestamp. -/
theorem c5_cache_idempotent_within_ttl (url body r : String) (c : Cache) (t1 : Nat)
    (hpl : isPlaylistUrl url = true)
    (hmiss : dictLookup c url = none)
    (hparse : parsePlaylistBody url body = some r) :
    (resolve_stream_url url t1 (some body) c).result = some r ∧
    (resolve_stream_url url t1 (some body) c).fetched = true ∧
    dictLookup (resolve_stream_url url t1 (some body) c).cache url = some (r, t1) ∧
    (∀ (t2 : Nat) (f2 : Option String), t2 - t1 < CACHE_DURATION →
      (resolve_stream_url url t2 f2 (resolve_stream_url url t1 (some body) c).cache).result
          = some r ∧
      (resolve_stream_url url t2 f2 (resolve_stream_url url t1 (some body) c).cache).fetched
          = false ∧
      (resolve_stream_url url t2 f2 (resolve_stream_url url t1 (some body) c).cache).cache
          = (resolve_stream_url url t1 (some body) c).cache) ∧
    (∀ (t2 : Nat) (body2 r2 : String), CACHE_DURATION ≤ t2 - t1 →
      parsePlaylistBody url body2 = some r2 →
      (resolve_stream_url url t2 (some body2)
          (resolve_stream_url url t1 (some body) c).cache).result = some r2 ∧
      (resolve_stream_url url t2 (some body2)
          (resolve_stream_url url t1 (some body) c).cache).fetched = true ∧
      dictLookup (resolve_stream_url url t2 (some body2)
          (resolve_stream_url url t1 (some body) c).cache).cache url = some (r2, t2)) := by
  have h1 : resolve_stream_url url t1 (some body) c =
      { result := some r, cache := dictInsert c url (r, t1), fetched := true } := by
    unfold resolve_stream_url resolveFetch
    rw [hmiss]
    simp [hpl, hparse]
  refine ⟨by rw [h1], by rw [h1], ?_, ?_, ?_⟩
  · rw [h1]
    exact dictLookup_insert_self c url (r, t1)
  · intro t2 f2 hlt
    rw [h1]
    unfold resolve_stream_url
    rw [dictLookup_insert_self]
    simp [hlt]
  · intro t2 body2 r2 hge hparse2
    rw [h1]
    unfold resolve_stream_url
    rw [dictLookup_insert_self]
    simp [not_lt.mpr hge, resolveFetch, hpl, hparse2, dictLookup_insert_self]

/-- Witness for C5: resolve `http://e/x.m3u` at time 0 from an empty cache,
hit the cache at time 100, and overwrite the expired entry at time 4000. -/
theorem c5_cache_witness :
    (resolve_stream_url "http://e/x.m3u" 0 (some "http://s/a") []).result = some "http://s/a" ∧
    (resolve_stream_url "http://e/x.m3u" 0 (some "http://s/a") []).fetched = true ∧
    dictLookup (resolve_stream_url "http://e/x.m3u" 0 (some "http://s/a") []).cache
        "http://e/x.m3u" = some ("http://s/a", 0) ∧
    (resolve_stream_url "http://e/x.m3u" 100 none
        (resolve_stream_url "http://e/x.m3u" 0 (some "http://s/a") []).cache).result
      = some "http://s/a" ∧
    (resolve_stream_url "http://e/x.m3u" 100 none
        (resolve_stream_url "http://e/x.m3u" 0 (some "http://s/a") []).cache).fetched
      = false ∧
    dictLookup (resolve_stream_url "http://e/x.m3u" 4000 (some "http://s/b")
        (resolve_stream_url "http://e/x.m3u" 0 (some "http://s/a") []).cache).cache
        "http://e/x.m3u" = some ("http://s/b", 4000) := by
  have h := c5_cache_idempotent_within_ttl "http://e/x.m3u" "http://s/a" "http://s/a" [] 0
    (by decide) (by decide) (by decide)
  obtain ⟨hA, hB, hC, hD, hE⟩ := h
  have hD1 := hD 100 none (by decide)
  have hE1 := hE 4000 "http://s/b" "http://s/b" (by decide) (by decide)
  exact ⟨hA, hB, hC, hD1.1, hD1.2.1, hE1.2.2⟩

/-! ### Claim C9 -/

/-- C9: stopping a guild that has a session always deletes its record from
`current_radios` and writes a snapshot of the post-deletion state, whatever
the stop/disconnect inside the `try` did (clean, timed out after 5s, or
raised); afterwards a status query reports that nothing is playing. -/
theorem c9_stop_clears_session_despite_errors (st : BotState) (guild_id : Nat)
    (d : DisconnectOutcome) (r : SessionRec) (now : Nat)
    (hnd : (st.current_radios.map Prod.fst).Nodup)
    (h : dictLookup st.current_radios guild_id = some r) :
    (stop_radio st guild_id d).1 = .stopped r.name ∧
    dictLookup (stop_radio st guild_id d).2.current_radios guild_id = none ∧
    (stop_radio st guild_id d).2.snapshot =
      some (save_state { st with current_radios := dictErase st.current_radios guild_id }) ∧
    show_info (stop_radio st guild_id d).2 guild_id now = .notPlaying := by
  have he := dictLookup_erase_self st.current_radios guild_id hnd
  unfold stop_radio
  rw [h]
  refine ⟨rfl, ?_, rfl, ?_⟩
  · simpa [writeSnapshot] using he
  · unfold show_info
    simp [writeSnapshot, he]

def c9Session : SessionRec :=
  { name := "Lofi", voice_client := 3, vcChannel := 42, url := "http://s.example/lofi"
    start_time := 50 }

def c9State : BotState :=
  { current_radios := [(1, c9Session)]
    RADIOS := [("Lofi", { url := "http://s.example/lofi" })]
    server_stations := []
    stream_cache := []
    auto_leave_tasks := []
    snapshot := none }

/-- Witness for C9: a concrete stop whose voice-client disconnect raises. -/
theorem c9_stop_witness :
    (stop_radio c9State 1 .error).1 = .stopped "Lofi" ∧
    dictLookup (stop_radio c9State 1 .error).2.current_radios 1 = none ∧
    (stop_radio c9State 1 .error).2.snapshot =
      some (save_state { c9State with
        current_radios := dictErase c9State.current_radios 1 }) ∧
    show_info (stop_radio c9State 1 .error).2 1 60 = .notPlaying :=
  c9_stop_clears_session_despite_errors c9State 1 .error c9Session 60 (by decide) (by decide)

/-! ### Claim C10 -/

/-- C10: in the merged registry view, a name defined both globally and for
the guild resolves to the guild-scoped definition, and building the view
leaves the module state (in particular the global `RADIOS` dict, of which
only a copy is updated) unchanged. -/
theorem c10_guild_station_shadows_global (st : BotState) (guild_id : Nat) (name : String)
    (gv sv : Station) (gmap : List (String × Station))
    (_hglobal : dictLookup st.RADIOS name = some gv)
    (hguild : dictLookup st.server_stations guild_id = some gmap)
    (hnd : (gmap.map Prod.fst).Nodup)
    (hin : dictLookup gmap name = some sv) :
    dictLookup (get_available_stations st guild_id).1 name = some sv ∧
    (get_available_stations st guild_id).2 = st := by
  unfold get_available_stations
  rw [hguild]
  exact ⟨dictLookup_update_of_some st.RADIOS gmap name sv hnd hin, rfl⟩

def c10GlobalSta : Station := { url := "http://g.example/live/a.mp3" }

def c10ServerSta : Station :=
  { url := "http://s.example/stream", added_by := some 9, added_at := some 1 }

/-- A state in which guild 1 shadows the global station `"X"`, reached by
loading a snapshot into a fresh instance (nothing in `load_state` prevents
the shadowing). -/
def c10State : BotState :=
  load_state (freshState [("X", c10GlobalSta)])
    (some { current_radios := []
            radios := [("X", c10GlobalSta)]
            server_stations := [(1, [("X", c10ServerSta)])] })

/-- Witness for C10: in the loaded shadowing state, guild 1 sees its own
definition of `"X"` and the state is untouched. -/
theorem c10_shadowing_witness :
    dictLookup (get_available_stations c10State 1).1 "X" = some c10ServerSta ∧
    (get_available_stations c10State 1).2 = c10State :=
  c10_guild_station_shadows_global c10State 1 "X" c10GlobalSta c10ServerSta
    [("X", c10ServerSta)] (by decide) (by decide) (by decide) (by decide)

/-! ### Claim C4 -/

/-- C4 (amended): the station registry round-trips through
`save_state`/`load_state` — over the same startup config, global and
guild-scoped station lookups in the reloaded fresh instance agree with the
serialized instance — but the reloaded session table is empty, because
`load_state` never reads the serialized `current_radios` back. -/
theorem c4_registry_roundtrips_sessions_dropped
    (configRadios base : List (String × Station)) (st : BotState)
    (hR : st.RADIOS = dictUpdate configRadios base)
    (hndR : (st.RADIOS.map Prod.fst).Nodup)
    (hndS : (st.server_stations.map Prod.fst).Nodup) :
    (∀ name,
      dictLookup (load_state (freshState configRadios) (some (save_state st))).RADIOS name
        = dictLookup st.RADIOS name) ∧
    (∀ gid,
      dictLookup
          (load_state (freshState configRadios) (some (save_state st))).server_stations gid
        = dictLookup st.server_stations gid) ∧
    (load_state (freshState configRadios) (some (save_state st))).current_radios = [] := by
  refine ⟨?_, ?_, rfl⟩
  · intro name
    show dictLookup (dictUpdate configRadios st.RADIOS) name = dictLookup st.RADIOS name
    cases hx : dictLookup st.RADIOS name with
    | some v => exact dictLookup_update_of_some _ _ _ _ hndR hx
    | none =>
      rw [dictLookup_update_of_none _ _ _ hx]
      cases hcfg : dictLookup configRadios name with
      | none => rfl
      | some v =>
        exfalso
        have hs := dictLookup_update_isSome configRadios base name (by rw [hcfg]; rfl)
        rw [← hR, hx] at hs
        simp at hs
  · intro gid
    show dictLookup (dictUpdate [] st.server_stations) gid
        = dictLookup st.server_stations gid
    cases hx : dictLookup st.server_stations gid with
    | some v => exact dictLookup_update_of_some _ _ _ _ hndS hx
    | none =>
      rw [dictLookup_update_of_none _ _ _ hx]
      rfl

def c4Session : SessionRec :=
  { name := "X", voice_client := 7, vcChannel := 42, url := "http://s.example/a"
    start_time := 5 }

def c4State : BotState :=
  { current_radios := [(1, c4Session)]
    RADIOS := [("X", { url := "http://g.example/a.mp3" })]
    server_stations := [(2, [("Y", { url := "http://g.example/b.mp3" })])]
    stream_cache := []
    auto_leave_tasks := []
    snapshot := none }

/-- C4 counterexample: a state with one active session serializes its
metadata, yet reloading into a fresh instance yields an empty session
table, so the active-session metadata is not equivalent after the
round-trip. -/
theorem c4_session_roundtrip_counterexample :
    (save_state c4State).current_radios
      = [(1, { name := "X", url := "http://s.example/a", start_time := 5 })] ∧
    (load_state (freshState [("X", { url := "http://g.example/a.mp3" })])
        (some (save_state c4State))).current_radios = [] ∧
    c4State.current_radios ≠ [] := by
  decide

/-- Witness for C4 (amended): the registry round-trip applied to the
concrete state, instantiated at the shadowed name and the guild with
stations. -/
theorem c4_registry_witness :
    dictLookup (load_state (freshState [("X", { url := "http://g.example/a.mp3" })])
        (some (save_state c4State))).RADIOS "X" = dictLookup c4State.RADIOS "X" ∧
    dictLookup (load_state (freshState [("X", { url := "http://g.example/a.mp3" })])
        (some (save_state c4State))).server_stations 2
      = dictLookup c4State.server_stations 2 ∧
    (load_state (freshState [("X", { url := "http://g.example/a.mp3" })])
        (some (save_state c4State))).current_radios = [] := by
  have h := c4_registry_roundtrips_sessions_dropped
    [("X", { url := "http://g.example/a.mp3" })] [] c4State (by decide) (by decide) (by decide)
  exact ⟨h.1 "X", h.2.1 2, h.2.2⟩

/-! ### Claim C2 -/

/-- C2 (amended): every error exit of `play_radio_static` — including the
`ConnectionFailed` exit after all 3 connection attempts — leaves the
session table exactly as it was: no new or half-built record is installed,
so a guild that was Idle before the call is Idle after it. (The flip side,
shown by the counterexample, is that a previous guild session's record is
also left in the table rather than removed.) -/
theorem c2_play_error_leaves_sessions_unchanged (st : BotState) (guild_id : Nat)
    (station_name : String) (env : PlayEnv)
    (h : (play_radio st guild_id station_name env).1.isOk = false) :
    (play_radio st guild_id station_name env).2.current_radios = st.current_radios ∧
    (dictLookup st.current_radios guild_id = none →
      dictLookup (play_radio st guild_id station_name env).2.current_radios guild_id
        = none) := by
  have hs : (play_radio st guild_id station_name env).2.current_radios
      = st.current_radios := by
    rcases hp : play_radio st guild_id station_name env with ⟨res, st2⟩
    rw [hp] at h
    simp only at h
    unfold play_radio at hp
    repeat' split at hp
    all_goals
      first
        | (injection hp with h1 h2; subst h2; rfl)
        | (injection hp with h1 h2; subst h2; subst h1; simp [PlayResult.isOk] at h)
  exact ⟨hs, fun hn => hs ▸ hn⟩

def c2OldSession : SessionRec :=
  { name := "Old", voice_client := 7, vcChannel := 42, url := "http://old.example/stream"
    start_time := 100 }

def c2State : BotState :=
  { current_radios := [(1, c2OldSession)]
    RADIOS := [("New", { url := "http://new.example/live/a.mp3" })]
    server_stations := []
    stream_cache := []
    auto_leave_tasks := []
    snapshot := none }

/-- A play attempt in which all three voice connection attempts end in
`ConnectionClosed`, surfacing the Connection Failed error. -/
def c2FailEnv : PlayEnv :=
  { userChannel := some 42, a1 := .closed, a2 := .closed, a3 := .closed
    moveOk := true, fetch := none, probeOk := true, p1 := true, p2 := true, p3 := true
    now := 200 }

/-- C2 counterexample: when a previous session for guild 1 existed and the
new play exits with `ConnectionFailed`, the old session record is still in
the table — the state is not Idle, contradicting the claim. -/
theorem c2_stale_session_counterexample :
    (play_radio c2State 1 "New" c2FailEnv).1 = .connectionFailed ∧
    dictLookup (play_radio c2State 1 "New" c2FailEnv).2.current_radios 1
      = some c2OldSession := by
  decide

def c2IdleState : BotState :=
  { current_radios := []
    RADIOS := [("New", { url := "http://new.example/live/a.mp3" })]
    server_stations := []
    stream_cache := []
    auto_leave_tasks := []
    snapshot := none }

/-- Witness for C2 (amended): the exhausted-retries exit on an Idle guild
leaves the table empty. -/
theorem c2_idle_witness :
    (play_radio c2IdleState 1 "New" c2FailEnv).2.current_radios = [] ∧
    dictLookup (play_radio c2IdleState 1 "New" c2FailEnv).2.current_radios 1 = none := by
  have h := c2_play_error_leaves_sessions_unchanged c2IdleState 1 "New" c2FailEnv (by decide)
  exact ⟨h.1, h.2 (by decide)⟩

/-! ### Claim C3 -/

/-- C3 (amended): the pending auto-leave timer is cancelled and removed
only on events whose before-channel is the playing channel with the bot in
it and non-bot members present (e.g. a member leaving while others remain);
a plain rejoin event (before-channel elsewhere) does not cancel it — the
counterexample — but when the uncancelled timer fires it re-checks
occupancy, keeps the session, and emits no notification. -/
theorem c3_cancel_on_before_channel_and_firing_recheck :
    (∀ (g : GuildEnv) (st : BotState) (ev : VoiceEvent) (ch : Nat) (r : SessionRec),
      ev.memberIsBot = false →
      ev.beforeChannel = some ch →
      (g.channelMembers ch).any (fun m => m.id = g.botId) = true →
      dictLookup st.current_radios (g.channelGuild ch) = some r →
      r.vcChannel = ch →
      ((g.channelMembers ch).filter (fun m => !m.isBot)).isEmpty = false →
      st.auto_leave_tasks.contains (g.channelGuild ch) = true →
      (on_voice_state_update g st ev).auto_leave_tasks
        = st.auto_leave_tasks.erase (g.channelGuild ch)) ∧
    (∀ (g : GuildEnv) (st : BotState) (guild_id : Nat) (r : SessionRec),
      dictLookup st.current_radios guild_id = some r →
      ((g.channelMembers r.vcChannel).filter (fun m => !m.isBot)).isEmpty = false →
      (check_voice_channel_empty g st guild_id true).state.current_radios
          = st.current_radios ∧
      (check_voice_channel_empty g st guild_id true).notified = false) := by
  constructor
  · intro g st ev ch r hbot hbefore hbotin hsess hvcch hmem htask
    have htaskmem : g.channelGuild ch ∈ st.auto_leave_tasks := by
      simpa using htask
    unfold on_voice_state_update
    rw [hbot, hbefore]
    simp [hbotin, hsess, hvcch, hmem, htask, htaskmem]
  · intro g st guild_id r hsess hmem
    unfold check_voice_channel_empty
    rw [hsess]
    simp [hmem]

def c3Session : SessionRec :=
  { name := "Sta", voice_client := 7, vcChannel := 42, url := "http://s.example/a"
    start_time := 0 }

/-- Guild 1 has a live session in channel 42 and a pending auto-leave
timer. -/
def c3State : BotState :=
  { current_radios := [(1, c3Session)]
    RADIOS := []
    server_stations := []
    stream_cache := []
    auto_leave_tasks := [1]
    snapshot := none }

/-- Channel 42 currently holds the bot (id 99) and the non-bot member 5. -/
def c3Genv : GuildEnv :=
  { botId := 99
    channelGuild := fun _ => 1
    channelMembers := fun ch =>
      if ch = 42 then [{ id := 99, isBot := true }, { id := 5, isBot := false }] else [] }

/-- C3 counterexample: member 5 rejoins channel 42 from outside voice
(`before.channel = None`), so membership of the bot's channel is back above
zero while the timer is pending — yet the handler leaves the timer table
untouched, so the pending timer is not cancelled. -/
theorem c3_rejoin_does_not_cancel_counterexample :
    (on_voice_state_update c3Genv c3State
        { memberIsBot := false, beforeChannel := none,
          afterChannel := some 42 }).auto_leave_tasks = [1] ∧
    ((c3Genv.channelMembers 42).filter (fun m => !m.isBot)).isEmpty = false := by
  decide

/-- Witness for C3 (amended): a leave event from the occupied channel 42
cancels the pending timer, and the firing re-check keeps the session and
stays silent. -/
theorem c3_cancel_witness :
    (on_voice_state_update c3Genv c3State
        { memberIsBot := false, beforeChannel := some 42,
          afterChannel := none }).auto_leave_tasks = [] ∧
    (check_voice_channel_empty c3Genv c3State 1 true).state.current_radios
        = c3State.current_radios ∧
    (check_voice_channel_empty c3Genv c3State 1 true).notified = false := by
  have h1 := c3_cancel_on_before_channel_and_firing_recheck.1 c3Genv c3State
    { memberIsBot := false, beforeChannel := some 42, afterChannel := none } 42 c3Session
    (by decide) (by decide) (by decide) (by decide) (by decide) (by decide) (by decide)
  have h2 := c3_cancel_on_before_channel_and_firing_recheck.2 c3Genv c3State 1 c3Session
    (by decide) (by decide)
  exact ⟨h1, h2.1, h2.2⟩

end Alastor
